import Mathlib

/-!
Verification of the MobiFlow hub optimiser core (`hub_optimiser.py`):
the hub score calculator (`HubScoreCalculator.calculate_hub_score` and its
helpers) and the candidate grid search (`generate_hub_recommendations`).

Modelling conventions:
* Python floats are idealised as rationals (`ℚ`).
* `geopy.distance.geodesic(...).meters` is an external library call; every
  definition is parameterised by a distance function
  `dist : GeoPoint → GeoPoint → ℚ` standing for it.
* The `float('inf')` sentinel used by the minimum-accumulation loops is
  modelled as `Option ℚ` with `none` playing the role of infinity
  (`min(inf, d) = d`, `min(1.0, inf / c) = 1.0`).
* Code that can raise a Python exception is modelled in `Except PyError`.
* `pandas.DataFrame.sort_values(..., ascending=False)` uses the default
  `kind='quicksort'`, which guarantees a descending order but not
  stability; it is therefore modelled as a relation (`SortValuesDescBy`):
  any permutation of the input that is non-increasing on the key.
-/

/-- A latitude/longitude pair (the `lat, lng` float arguments threaded
through the Python code). -/
structure GeoPoint where
  lat : ℚ
  lng : ℚ
deriving DecidableEq

/-- A Dublin-bikes station row as consumed by the scorer: position plus the
fields of `MobilityStation` that the scoring code reads. -/
structure BikeStation where
  station_id : Nat
  name : String
  pos : GeoPoint
  available_bikes : Nat
  available_stands : Nat
  total_capacity : Nat
  status : String
deriving DecidableEq

/-- The derived `availability_score` column:
`df['available_bikes'] + df['available_stands']`. -/
def availability_score (s : BikeStation) : ℚ :=
  (s.available_bikes : ℚ) + (s.available_stands : ℚ)

/-- A transport reference row (bus stop or Luas station).  The bus-stop
frame has a `stop_name` column (neither `name` nor `station_name`), the
Luas frame has `station_name`; both optional fields model which of the two
keys probed by `calculate_distance_to_transport` is present. -/
structure TransportStop where
  pos : GeoPoint
  name : Option String
  station_name : Option String
deriving DecidableEq

/-- `transport['name'] if 'name' in transport else
transport.get('station_name', 'Unknown')` (line 326). -/
def stopDisplayName (t : TransportStop) : String :=
  match t.name with
  | some n => n
  | none => t.station_name.getD "Unknown"

/-- Python exceptions reachable from the modelled code.  `noneTypeError` is
the `TypeError` raised by `'name' in nearest_transport` when
`nearest_transport` is still `None` (empty reference frame).
`emptyReferenceSet` is the explicit error condition demanded by the spec;
no code path produces it. -/
inductive PyError where
  | noneTypeError
  | emptyReferenceSet
deriving DecidableEq

/-- The dict returned by `calculate_distance_to_transport`. -/
structure TransportProximity where
  distance_meters : ℚ
  nearest_station : String
  within_500m : Bool
  within_200m : Bool
deriving DecidableEq

/-- The `min_distance = float('inf'); for ...: min_distance =
min(min_distance, d)` accumulation pattern (`_calculate_infrastructure_gap`,
lines 412-423), with `none` as the infinite sentinel. -/
def minLoop : Option ℚ → List ℚ → Option ℚ
  | acc, [] => acc
  | none, d :: rest => minLoop (some d) rest
  | some m, d :: rest => minLoop (some (min m d)) rest

/-- Minimum of a list of distances, `none` when the list is empty (the
sentinel `inf` survives). -/
def pyMinOpt (l : List ℚ) : Option ℚ :=
  minLoop none l

/-- The scan of `calculate_distance_to_transport` (lines 315-322):
`if distance < min_distance:` keeps the first-encountered minimum together
with its row. -/
def nearestLoop (dist : GeoPoint → GeoPoint → ℚ) (p : GeoPoint) :
    Option (ℚ × TransportStop) → List TransportStop → Option (ℚ × TransportStop)
  | acc, [] => acc
  | acc, t :: rest =>
    let d := dist p t.pos
    match acc with
    | none => nearestLoop dist p (some (d, t)) rest
    | some (m, n) =>
      if d < m then nearestLoop dist p (some (d, t)) rest
      else nearestLoop dist p (some (m, n)) rest

/-- `MobilityDataCollector.calculate_distance_to_transport` (lines 313-329).
With an empty frame the loop never runs, `nearest_transport` stays `None`,
and building the result dict raises a `TypeError` (`'name' in None`). -/
def calculate_distance_to_transport (dist : GeoPoint → GeoPoint → ℚ)
    (p : GeoPoint) (transport_list : List TransportStop) :
    Except PyError TransportProximity :=
  match nearestLoop dist p none transport_list with
  | none => .error .noneTypeError
  | some (m, t) =>
    .ok { distance_meters := m
          nearest_station := stopDisplayName t
          within_500m := decide (m ≤ 500)
          within_200m := decide (m ≤ 200) }

/-- The transport-connectivity accumulation of `calculate_hub_score`
(lines 352-363), written as the sum of the bus branch and the Luas
branch. -/
def transport_score_val (bus_proximity luas_proximity : TransportProximity) : ℚ :=
  (if bus_proximity.within_200m then 15
   else if bus_proximity.within_500m then 10
   else max 0 (10 - (bus_proximity.distance_meters - 500) / 100)) +
  (if luas_proximity.within_500m then 20
   else max 0 (15 - (luas_proximity.distance_meters - 500) / 100))

/-- The accumulation loop of `_calculate_bike_demand` (lines 398-406):
`(nearby_demand, station_count)` threaded through the station list. -/
def bikeLoop (dist : GeoPoint → GeoPoint → ℚ) (p : GeoPoint) :
    ℚ × Nat → List BikeStation → ℚ × Nat
  | acc, [] => acc
  | (dem, cnt), s :: rest =>
    let d := dist p s.pos
    if d ≤ 1000 then
      bikeLoop dist p (dem + availability_score s * max 0 (1 - d / 1000), cnt + 1) rest
    else
      bikeLoop dist p (dem, cnt) rest

/-- `HubScoreCalculator._calculate_bike_demand` (lines 396-408). -/
def calculate_bike_demand (dist : GeoPoint → GeoPoint → ℚ)
    (bikes : List BikeStation) (p : GeoPoint) : ℚ :=
  let r := bikeLoop dist p (0, 0) bikes
  r.1 / (max r.2 1 : Nat)

/-- `min(1.0, d / c)` where `d` may be the infinite sentinel
(`min(1.0, inf / c) = 1.0`). -/
def infClampDiv (md : Option ℚ) (c : ℚ) : ℚ :=
  match md with
  | none => 1
  | some d => min 1 (d / c)

/-- `HubScoreCalculator._calculate_infrastructure_gap` (lines 410-429). -/
def calculate_infrastructure_gap (dist : GeoPoint → GeoPoint → ℚ)
    (bikes : List BikeStation) (bus : List TransportStop) (p : GeoPoint) : ℚ :=
  let min_bike_distance := pyMinOpt (bikes.map fun s => dist p s.pos)
  let min_bus_distance := pyMinOpt (bus.map fun t => dist p t.pos)
  let bike_gap := infClampDiv min_bike_distance 1000
  let bus_gap := infClampDiv min_bus_distance 500
  (bike_gap + bus_gap) / 2

/-- The fixed amenity reference points of `_calculate_accessibility_score`
(lines 440-444). -/
def key_locations : List GeoPoint :=
  [⟨53.3498, -6.2603⟩, ⟨53.3446, -6.2691⟩, ⟨53.3387, -6.2613⟩]

/-- `HubScoreCalculator._calculate_accessibility_score` (lines 431-451).
`key_locations` is a non-empty literal, so the `getD 0` default for
Python's `min([])` `ValueError` is unreachable. -/
def calculate_accessibility_score (dist : GeoPoint → GeoPoint → ℚ)
    (p : GeoPoint) : ℚ :=
  let min_distance_to_amenity := (pyMinOpt (key_locations.map (dist p))).getD 0
  max 0 (1 - min_distance_to_amenity / 2000)

/-- Python's `round(x, 2)`.  Ties (exact half cents) round half-up here
while CPython rounds the underlying binary float to even; no statement in
this file evaluates `pyRound2` at an exact half. -/
def pyRound2 (x : ℚ) : ℚ :=
  ((round (x * 100) : ℤ) : ℚ) / 100

/-- The `components` dict of the score result (lines 387-393). -/
structure ScoreComponents where
  nearest_bus : String
  bus_distance : ℚ
  nearest_luas : String
  luas_distance : ℚ
  bike_demand : ℚ
deriving DecidableEq

/-- The dict returned by `calculate_hub_score` (lines 380-394). -/
structure HubScore where
  total_score : ℚ
  transport_score : ℚ
  demand_score : ℚ
  gap_score : ℚ
  accessibility_score : ℚ
  population_score : ℚ
  components : ScoreComponents
deriving DecidableEq

/-- `HubScoreCalculator.calculate_hub_score` (lines 342-394).  An empty bus
or Luas frame propagates the `TypeError` from
`calculate_distance_to_transport`. -/
def calculate_hub_score (dist : GeoPoint → GeoPoint → ℚ)
    (bikes : List BikeStation) (bus luas : List TransportStop)
    (p : GeoPoint) : Except PyError HubScore :=
  match calculate_distance_to_transport dist p bus with
  | .error e => .error e
  | .ok bus_proximity =>
    match calculate_distance_to_transport dist p luas with
    | .error e => .error e
    | .ok luas_proximity =>
      let transport_score := transport_score_val bus_proximity luas_proximity
      let bike_demand := calculate_bike_demand dist bikes p
      let demand_score := min (bike_demand / 20 * 25) 25
      let gap_score := calculate_infrastructure_gap dist bikes bus p * 20
      let accessibility_score := calculate_accessibility_score dist p * 15
      let population_score : ℚ := 5
      let total_score :=
        transport_score + demand_score + gap_score + accessibility_score + population_score
      .ok { total_score := pyRound2 total_score
            transport_score := pyRound2 transport_score
            demand_score := pyRound2 demand_score
            gap_score := pyRound2 gap_score
            accessibility_score := pyRound2 accessibility_score
            population_score := pyRound2 population_score
            components := { nearest_bus := bus_proximity.nearest_station
                            bus_distance := bus_proximity.distance_meters
                            nearest_luas := luas_proximity.nearest_station
                            luas_distance := luas_proximity.distance_meters
                            bike_demand := bike_demand } }

/-- The six numeric outputs of a score (total plus five sub-scores);
the claims about purity and rounding quantify over these. -/
def score_values (r : HubScore) : ℚ × ℚ × ℚ × ℚ × ℚ × ℚ :=
  (r.total_score, r.transport_score, r.demand_score,
   r.gap_score, r.accessibility_score, r.population_score)

/-- A bounding box (`dublin_bounds` dict, lines 469-474). -/
structure Bounds where
  north : ℚ
  south : ℚ
  east : ℚ
  west : ℚ
deriving DecidableEq

/-- The bounding box hardcoded in `generate_hub_recommendations`. -/
def dublin_bounds : Bounds :=
  { north := 53.37, south := 53.32, east := -6.22, west := -6.30 }

/-- The candidate-lattice generation of `generate_hub_recommendations`
(lines 477-485).  The source hardcodes `resolution = 20`; the divisor and
both `range` calls use the same resolution. -/
def candidate_locations (bounds : Bounds) (resolution : Nat) : List GeoPoint :=
  let lat_step := (bounds.north - bounds.south) / (resolution : ℚ)
  let lng_step := (bounds.east - bounds.west) / (resolution : ℚ)
  (List.range resolution).flatMap fun (i : Nat) =>
    (List.range resolution).map fun (j : Nat) =>
      ⟨bounds.south + (i : ℚ) * lat_step, bounds.west + (j : ℚ) * lng_step⟩

/-- One row of the recommendations frame (lines 491-502); the population
sub-score is not exported. -/
structure RankedCandidate where
  latitude : ℚ
  longitude : ℚ
  hub_score : ℚ
  transport_score : ℚ
  demand_score : ℚ
  gap_score : ℚ
  accessibility_score : ℚ
  nearest_bus : String
  nearest_luas : String
  bike_demand : ℚ
deriving DecidableEq

/-- Flattening of a score dict into a result row (lines 491-502). -/
def toRanked (p : GeoPoint) (s : HubScore) : RankedCandidate :=
  { latitude := p.lat
    longitude := p.lng
    hub_score := s.total_score
    transport_score := s.transport_score
    demand_score := s.demand_score
    gap_score := s.gap_score
    accessibility_score := s.accessibility_score
    nearest_bus := s.components.nearest_bus
    nearest_luas := s.components.nearest_luas
    bike_demand := s.components.bike_demand }

/-- Sequential evaluation where a raised exception aborts the whole loop
(the `for lat, lng in candidate_locations` loop, lines 488-502). -/
def mapExcept (f : α → Except PyError β) : List α → Except PyError (List β)
  | [] => .ok []
  | x :: xs =>
    match f x with
    | .error e => .error e
    | .ok y =>
      match mapExcept f xs with
      | .error e => .error e
      | .ok ys => .ok (y :: ys)

/-- Scoring of every lattice point, in lattice enumeration order. -/
def score_candidates (dist : GeoPoint → GeoPoint → ℚ)
    (bikes : List BikeStation) (bus luas : List TransportStop)
    (cands : List GeoPoint) : Except PyError (List RankedCandidate) :=
  mapExcept (fun p => (calculate_hub_score dist bikes bus luas p).map (toRanked p)) cands

/-- `recommendations_df.sort_values('hub_score', ascending=False)`
(line 506).  The default `kind='quicksort'` guarantees a permutation that
is non-increasing on `hub_score` and nothing about the order of ties, so
the sort is a relation between input and output. -/
def SortValuesDescBy (input output : List RankedCandidate) : Prop :=
  input.Perm output ∧ output.Pairwise (fun a b => b.hub_score ≤ a.hub_score)

/-- `generate_hub_recommendations` (lines 453-510) as a relation: generate
the lattice, score every point, sort descending by `hub_score`, truncate
with `.head(top_k)`. -/
def GridSearchOutput (dist : GeoPoint → GeoPoint → ℚ)
    (bikes : List BikeStation) (bus luas : List TransportStop)
    (bounds : Bounds) (resolution : Nat) (top_k : Nat)
    (result : List RankedCandidate) : Prop :=
  ∃ scored sorted,
    score_candidates dist bikes bus luas (candidate_locations bounds resolution) = .ok scored ∧
    SortValuesDescBy scored sorted ∧
    result = sorted.take top_k

/-- Modelled from the spec: the bus contribution formula of the transport
connectivity component ("15 if within 200m, else 10 if within 500m, else
`max(0, 10 - (distance_m - 500)/100)`"), as a function of the nearest-bus
distance, for comparison with the source's branch on proximity flags. -/
def spec_bus_contribution (d : ℚ) : ℚ :=
  if d ≤ 200 then 15
  else if d ≤ 500 then 10
  else max 0 (10 - (d - 500) / 100)

/-- Modelled from the spec: the rail contribution formula ("20 if within
500m, else `max(0, 15 - (distance_m - 500)/100)`"). -/
def spec_rail_contribution (d : ℚ) : ℚ :=
  if d ≤ 500 then 20
  else max 0 (15 - (d - 500) / 100)

/-! ### Helper lemmas about the minimum-accumulation loops -/

theorem minLoop_some (l : List ℚ) : ∀ m : ℚ, minLoop (some m) l = some (l.foldl min m) := by
  induction l with
  | nil => intro m; rfl
  | cons d rest ih => intro m; simp [minLoop, List.foldl, ih]

theorem foldl_min_le_init (l : List ℚ) : ∀ m : ℚ, l.foldl min m ≤ m := by
  induction l with
  | nil => intro m; exact le_refl m
  | cons d rest ih =>
    intro m
    calc (d :: rest).foldl min m = rest.foldl min (min m d) := rfl
    _ ≤ min m d := ih (min m d)
    _ ≤ m := min_le_left m d

theorem foldl_min_le_of_mem (l : List ℚ) : ∀ m y : ℚ, y ∈ l → l.foldl min m ≤ y := by
  induction l with
  | nil => intro m y hy; cases hy
  | cons d rest ih =>
    intro m y hy
    rcases List.mem_cons.mp hy with h | h
    · subst h
      calc (y :: rest).foldl min m = rest.foldl min (min m y) := rfl
      _ ≤ min m y := foldl_min_le_init rest (min m y)
      _ ≤ y := min_le_right m y
    · exact ih (min m d) y h

theorem foldl_min_mem_or_init (l : List ℚ) : ∀ m : ℚ, l.foldl min m = m ∨ l.foldl min m ∈ l := by
  induction l with
  | nil => intro m; exact Or.inl rfl
  | cons d rest ih =>
    intro m
    rcases ih (min m d) with h | h
    · rcases min_cases m d with ⟨he, _⟩ | ⟨he, _⟩
      · exact Or.inl (by simpa [List.foldl, he] using h)
      · refine Or.inr ?_
        have : (d :: rest).foldl min m = d := by simpa [List.foldl, he] using h
        simp [this]
    · exact Or.inr (List.mem_cons_of_mem d (by simpa [List.foldl] using h))

theorem pyMinOpt_nil : pyMinOpt [] = none := rfl

theorem pyMinOpt_spec (l : List ℚ) (hl : l ≠ []) :
    ∃ m, pyMinOpt l = some m ∧ m ∈ l ∧ ∀ y ∈ l, m ≤ y := by
  match l, hl with
  | d :: rest, _ =>
    refine ⟨rest.foldl min d, ?_, ?_, ?_⟩
    · simpa [pyMinOpt, minLoop] using minLoop_some rest d
    · rcases foldl_min_mem_or_init rest d with h | h
      · simp [h]
      · exact List.mem_cons_of_mem d h
    · intro y hy
      rcases List.mem_cons.mp hy with h | h
      · subst h; exact foldl_min_le_init rest y
      · exact foldl_min_le_of_mem rest d y h

theorem pyMinOpt_eq_some_of_isLeast (l : List ℚ) (a : ℚ)
    (ha : a ∈ l) (hle : ∀ y ∈ l, a ≤ y) : pyMinOpt l = some a := by
  have hl : l ≠ [] := List.ne_nil_of_mem ha
  obtain ⟨m, hm, hmem, hmin⟩ := pyMinOpt_spec l hl
  have : m = a := le_antisymm (hmin a ha) (hle m hmem)
  simpa [this] using hm

theorem pyMinOpt_perm {l l' : List ℚ} (h : l.Perm l') : pyMinOpt l = pyMinOpt l' := by
  by_cases hl : l = []
  · subst hl
    have : l' = [] := h.symm.eq_nil
    simp [this]
  · obtain ⟨m, hm, hmem, hmin⟩ := pyMinOpt_spec l hl
    have hm' : pyMinOpt l' = some m :=
      pyMinOpt_eq_some_of_isLeast l' m (h.subset hmem) (fun y hy => hmin y (h.symm.subset hy))
    rw [hm, hm']

theorem nearestLoop_fst (dist : GeoPoint → GeoPoint → ℚ) (p : GeoPoint) :
    ∀ (l : List TransportStop) (acc : Option (ℚ × TransportStop)),
      (nearestLoop dist p acc l).map Prod.fst =
        minLoop (acc.map Prod.fst) (l.map fun s => dist p s.pos) := by
  intro l
  induction l with
  | nil => intro acc; cases acc <;> rfl
  | cons t rest ih =>
    intro acc
    cases acc with
    | none => simpa [nearestLoop, minLoop] using ih (some (dist p t.pos, t))
    | some mn =>
      obtain ⟨m, n⟩ := mn
      by_cases hd : dist p t.pos < m
      · have hmin : min m (dist p t.pos) = dist p t.pos := min_eq_right (le_of_lt hd)
        simpa [nearestLoop, minLoop, hd, hmin] using ih (some (dist p t.pos, t))
      · have hmin : min m (dist p t.pos) = m := min_eq_left (le_of_not_lt hd)
        simpa [nearestLoop, minLoop, hd, hmin] using ih (some (m, n))

/-- Shape of `calculate_distance_to_transport`: an empty frame raises the
`TypeError`, a non-empty frame returns the minimum distance with flags
derived from it. -/
theorem calculate_distance_to_transport_cases (dist : GeoPoint → GeoPoint → ℚ)
    (p : GeoPoint) (refs : List TransportStop) :
    (refs = [] ∧ calculate_distance_to_transport dist p refs = .error .noneTypeError) ∨
    (∃ m t, pyMinOpt (refs.map fun s => dist p s.pos) = some m ∧
      calculate_distance_to_transport dist p refs =
        .ok { distance_meters := m
              nearest_station := stopDisplayName t
              within_500m := decide (m ≤ 500)
              within_200m := decide (m ≤ 200) }) := by
  have hfst := nearestLoop_fst dist p refs none
  cases hloop : nearestLoop dist p none refs with
  | none =>
    left
    have : pyMinOpt (refs.map fun s => dist p s.pos) = none := by
      simpa [hloop, pyMinOpt] using hfst.symm
    have hmapnil : refs.map (fun s => dist p s.pos) = [] := by
      by_contra hne
      obtain ⟨m, hm, _, _⟩ := pyMinOpt_spec _ hne
      rw [this] at hm
      cases hm
    constructor
    · exact List.map_eq_nil_iff.mp hmapnil
    · simp [calculate_distance_to_transport, hloop]
  | some mt =>
    obtain ⟨m, t⟩ := mt
    right
    refine ⟨m, t, ?_, ?_⟩
    · simpa [hloop, pyMinOpt] using hfst.symm
    · simp [calculate_distance_to_transport, hloop]

theorem calculate_distance_to_transport_empty (dist : GeoPoint → GeoPoint → ℚ)
    (p : GeoPoint) :
    calculate_distance_to_transport dist p [] = .error .noneTypeError := rfl

/-- The bike-demand loop computes the sum of decayed availability scores
over the stations within 1000m, and their count. -/
theorem bikeLoop_eq (dist : GeoPoint → GeoPoint → ℚ) (p : GeoPoint) :
    ∀ (l : List BikeStation) (a : ℚ) (c : Nat),
      bikeLoop dist p (a, c) l =
        (a + ((l.filter fun s => decide (dist p s.pos ≤ 1000)).map
                fun s => availability_score s * max 0 (1 - dist p s.pos / 1000)).sum,
         c + (l.filter fun s => decide (dist p s.pos ≤ 1000)).length) := by
  intro l
  induction l with
  | nil => intro a c; simp [bikeLoop]
  | cons s rest ih =>
    intro a c
    by_cases hd : dist p s.pos ≤ 1000
    · have hstep : bikeLoop dist p (a, c) (s :: rest) =
          bikeLoop dist p (a + availability_score s * max 0 (1 - dist p s.pos / 1000), c + 1) rest := by
        simp [bikeLoop, hd]
      rw [hstep, ih, List.filter_cons]
      simp only [hd, decide_eq_true_eq, if_true, List.map_cons, List.sum_cons,
        List.length_cons, Prod.mk.injEq]
      constructor
      · ring
      · omega
    · have hstep : bikeLoop dist p (a, c) (s :: rest) = bikeLoop dist p (a, c) rest := by
        simp [bikeLoop, hd]
      rw [hstep, ih, List.filter_cons]
      simp [hd]

/-! ### Helper lemmas about scoring the candidate lattice -/

theorem mapExcept_ok_length (f : α → Except PyError β) :
    ∀ {l : List α} {res : List β}, mapExcept f l = .ok res → res.length = l.length := by
  intro l
  induction l with
  | nil => intro res h; cases h; rfl
  | cons x xs ih =>
    intro res h
    cases hx : f x with
    | error e => rw [mapExcept, hx] at h; cases h
    | ok y =>
      rw [mapExcept, hx] at h
      cases hxs : mapExcept f xs with
      | error e => rw [hxs] at h; cases h
      | ok ys =>
        rw [hxs] at h
        cases h
        simp [ih hxs]

theorem mapExcept_ok_of_forall (f : α → Except PyError β) (g : α → β) :
    ∀ (l : List α), (∀ a ∈ l, f a = .ok (g a)) → mapExcept f l = .ok (l.map g) := by
  intro l
  induction l with
  | nil => intro _; rfl
  | cons x xs ih =>
    intro h
    have hx : f x = .ok (g x) := h x (List.mem_cons_self x xs)
    have hxs : mapExcept f xs = .ok (xs.map g) :=
      ih fun a ha => h a (List.mem_cons_of_mem x ha)
    simp [mapExcept, hx, hxs]

theorem flatMap_length_const (l : List α) (f : α → List β) (k : Nat)
    (h : ∀ a ∈ l, (f a).length = k) : (l.flatMap f).length = l.length * k := by
  induction l with
  | nil => simp
  | cons x xs ih =>
    rw [List.flatMap_cons, List.length_append, h x (List.mem_cons_self x xs),
      ih fun a ha => h a (List.mem_cons_of_mem x ha)]
    simp [List.length_cons]
    ring

/-- The lattice always has exactly `resolution * resolution` points — no
bounds validation happens anywhere on the way. -/
theorem candidate_locations_length (bounds : Bounds) (resolution : Nat) :
    (candidate_locations bounds resolution).length = resolution * resolution := by
  simp only [candidate_locations]
  refine Eq.trans (flatMap_length_const _ _ resolution ?_) ?_
  · intro a _
    simp [List.length_map, List.length_range]
  · simp [List.length_range]

theorem pairwise_hub_le_of_const (c : ℚ) :
    ∀ (l : List RankedCandidate), (∀ a ∈ l, a.hub_score = c) →
      l.Pairwise (fun a b => b.hub_score ≤ a.hub_score) := by
  intro l
  induction l with
  | nil => intro _; exact List.Pairwise.nil
  | cons x xs ih =>
    intro h
    refine List.Pairwise.cons ?_ (ih fun a ha => h a (List.mem_cons_of_mem x ha))
    intro b hb
    rw [h b (List.mem_cons_of_mem x hb), h x (List.mem_cons_self x xs)]

/-! ### Concrete scenario data used by witnesses and counterexamples -/

/-- A constant distance function: every pair of points is 100m apart. -/
def cdist : GeoPoint → GeoPoint → ℚ := fun _ _ => 100

/-- A single transport reference row. -/
def cstop : TransportStop :=
  { pos := ⟨0, 0⟩, name := some "Stop", station_name := none }

/-- The score every point receives with `cdist`, an empty bike dataset and
`[cstop]` as both bus and Luas frames: transport 15+20, demand 0, gap
20*(1+1/5)/2 = 12, accessibility 15*(19/20) = 14.25, population 5. -/
def cScore : HubScore :=
  { total_score := 66.25
    transport_score := 35
    demand_score := 0
    gap_score := 12
    accessibility_score := 14.25
    population_score := 5
    components := { nearest_bus := "Stop"
                    bus_distance := 100
                    nearest_luas := "Stop"
                    luas_distance := 100
                    bike_demand := 0 } }

theorem calculate_hub_score_cdist (p : GeoPoint) :
    calculate_hub_score cdist [] [cstop] [cstop] p = .ok cScore := by
  norm_num [calculate_hub_score, calculate_distance_to_transport, nearestLoop, cdist, cstop,
    stopDisplayName, transport_score_val, calculate_bike_demand, bikeLoop,
    calculate_infrastructure_gap, pyMinOpt, minLoop, infClampDiv, key_locations,
    calculate_accessibility_score, pyRound2, cScore, round_eq, min_def, max_def]

theorem score_candidates_cdist (cands : List GeoPoint) :
    score_candidates cdist [] [cstop] [cstop] cands =
      .ok (cands.map fun q => toRanked q cScore) := by
  apply mapExcept_ok_of_forall
  intro a _
  rw [calculate_hub_score_cdist a]
  rfl

theorem mem_map_toRanked_hub_score {cands : List GeoPoint} {a : RankedCandidate}
    (ha : a ∈ cands.map fun q => toRanked q cScore) : a.hub_score = 66.25 := by
  obtain ⟨q, _, rfl⟩ := List.mem_map.mp ha
  rfl

/-- An inverted bounding box: north ≤ south and east ≤ west. -/
def invBounds : Bounds := { north := 0, south := 1, east := 0, west := 1 }

/-- A tiny well-formed bounding box for the tie-order scenario. -/
def sqBounds : Bounds := { north := 1, south := 0, east := 1, west := 0 }

/-- The scored 2×2 lattice of `sqBounds` under the constant distance
function, in lattice enumeration order. -/
def c3_scored : List RankedCandidate :=
  (candidate_locations sqBounds 2).map fun q => toRanked q cScore

/-- A grid-search output for the inverted bounding box: the whole lattice
scores identically, so the identity ordering is a valid quicksort result. -/
def c7_out : List RankedCandidate :=
  ((candidate_locations invBounds 20).map fun q => toRanked q cScore).take 5

/-! ### Claim theorems -/

/-- C4 (amended): calling the nearest-reference lookup with an empty
reference set fails — the loop leaves `nearest_transport = None` and
building the result raises the `NoneType` `TypeError` — so the sentinel
infinite minimum never reaches downstream arithmetic; but the failure is
not an explicit "empty reference set" error condition. -/
theorem c4_empty_refs_raise_none_type_error (dist : GeoPoint → GeoPoint → ℚ) (p : GeoPoint) :
    calculate_distance_to_transport dist p [] = .error .noneTypeError := rfl

/-- C4 counterexample: at the concrete query point (0,0) with an empty
reference set, the lookup fails with the `NoneType` `TypeError`, which is
not the explicit "empty reference set" error condition the claim states. -/
theorem c4_counterexample :
    calculate_distance_to_transport cdist ⟨0, 0⟩ [] = .error .noneTypeError ∧
    PyError.noneTypeError ≠ PyError.emptyReferenceSet :=
  ⟨rfl, by decide⟩

/-- C5: with bounds north=53.37, south=53.32, east=-6.22, west=-6.30 and
resolution 20, exactly 400 lattice points are generated, the first is
exactly (53.32, -6.30), and no point has latitude ≥ 53.37 or longitude
≥ -6.22. -/
theorem c5_dublin_lattice :
    (candidate_locations dublin_bounds 20).length = 400 ∧
    (candidate_locations dublin_bounds 20).head? = some ⟨53.32, -6.30⟩ ∧
    ∀ q ∈ candidate_locations dublin_bounds 20, q.lat < 53.37 ∧ q.lng < -6.22 := by
  refine ⟨?_, ?_, ?_⟩
  · rw [candidate_locations_length]
  · have hrange : List.range 20 = 0 :: (List.range 19).map (· + 1) :=
      List.range_succ_eq_map 19
    simp only [candidate_locations, hrange, List.flatMap_cons, List.map_cons,
      List.cons_append, List.head?_cons]
    norm_num [dublin_bounds]
  · intro q hq
    simp only [candidate_locations, List.mem_flatMap, List.mem_map, List.mem_range] at hq
    obtain ⟨i, hi, j, hj, rfl⟩ := hq
    have hi' : (i : ℚ) ≤ 19 := by exact_mod_cast Nat.lt_succ_iff.mp hi
    have hj' : (j : ℚ) ≤ 19 := by exact_mod_cast Nat.lt_succ_iff.mp hj
    have hlat : ((53.37 : ℚ) - 53.32) / 20 = 1 / 400 := by norm_num
    have hlng : ((-6.22 : ℚ) - -6.30) / 20 = 1 / 250 := by norm_num
    constructor
    · simp only [dublin_bounds]
      norm_num
      linarith
    · simp only [dublin_bounds]
      norm_num
      linarith

/-- C7 (amended): the grid search performs no validation of the bounding
box: for every bounds — malformed ones with north ≤ south or east ≤ west
included — the full `resolution × resolution` candidate lattice is
generated silently. -/
theorem c7_no_bounds_validation (bounds : Bounds) (resolution : Nat) :
    (candidate_locations bounds resolution).length = resolution * resolution :=
  candidate_locations_length bounds resolution

/-- C7 counterexample: for the malformed bounding box north=0, south=1,
east=0, west=1 the grid search does not fail fast: it silently generates
the full 400-point (inverted) lattice and returns a valid 5-candidate
result. -/
theorem c7_counterexample :
    invBounds.north ≤ invBounds.south ∧ invBounds.east ≤ invBounds.west ∧
    (candidate_locations invBounds 20).length = 400 ∧
    GridSearchOutput cdist [] [cstop] [cstop] invBounds 20 5 c7_out ∧
    c7_out.length = 5 := by
  refine ⟨by norm_num [invBounds], by norm_num [invBounds], by rw [candidate_locations_length], ?_, ?_⟩
  · refine ⟨(candidate_locations invBounds 20).map fun q => toRanked q cScore,
      (candidate_locations invBounds 20).map fun q => toRanked q cScore,
      score_candidates_cdist _, ⟨List.Perm.refl _, ?_⟩, rfl⟩
    exact pairwise_hub_le_of_const 66.25 _ fun a ha => mem_map_toRanked_hub_score ha
  · simp [c7_out, List.length_take, List.length_map, candidate_locations_length]

/-- C3 (amended): for every top_k and lattice, every possible grid-search
output has exactly `min top_k resolution²` candidates, ordered
non-increasing by total score; tie order is NOT fixed, because the sort is
pandas `sort_values` with the default (unstable) quicksort. -/
theorem c3_grid_search_count_sorted (dist : GeoPoint → GeoPoint → ℚ)
    (bikes : List BikeStation) (bus luas : List TransportStop)
    (bounds : Bounds) (resolution top_k : Nat) (result : List RankedCandidate)
    (h : GridSearchOutput dist bikes bus luas bounds resolution top_k result) :
    result.length = min top_k (resolution * resolution) ∧
    result.Pairwise (fun a b => b.hub_score ≤ a.hub_score) := by
  obtain ⟨scored, sorted, hscored, ⟨hperm, hsorted⟩, rfl⟩ := h
  have hlen1 : scored.length = resolution * resolution := by
    rw [mapExcept_ok_length _ hscored, candidate_locations_length]
  have hlen2 : sorted.length = resolution * resolution := by
    rw [← hperm.length_eq, hlen1]
  constructor
  · rw [List.length_take, hlen2]
  · exact hsorted.sublist (List.take_sublist _ _)

/-- C3 witness: a concrete grid-search run (2×2 lattice, top_k = 4) whose
output has exactly min 4 4 candidates in non-increasing score order. -/
theorem c3_witness :
    GridSearchOutput cdist [] [cstop] [cstop] sqBounds 2 4 c3_scored ∧
    c3_scored.length = min 4 (2 * 2) ∧
    c3_scored.Pairwise (fun a b => b.hub_score ≤ a.hub_score) := by
  have hpw : c3_scored.Pairwise (fun a b => b.hub_score ≤ a.hub_score) :=
    pairwise_hub_le_of_const 66.25 _ fun a ha =>
      mem_map_toRanked_hub_score (by simpa [c3_scored] using ha)
  have hlen : c3_scored.length = 4 := by
    simp [c3_scored, List.length_map, candidate_locations_length]
  have hg : GridSearchOutput cdist [] [cstop] [cstop] sqBounds 2 4 c3_scored := by
    refine ⟨c3_scored, c3_scored, score_candidates_cdist _, ⟨List.Perm.refl _, hpw⟩, ?_⟩
    rw [List.take_of_length_le (le_of_eq hlen)]
  have := c3_grid_search_count_sorted cdist [] [cstop] [cstop] sqBounds 2 4 c3_scored hg
  exact ⟨hg, this.1, this.2⟩

/-- C3 counterexample: on a 2×2 lattice where all four candidates tie at
total score 66.25, the reversed enumeration order is also a valid
grid-search output (the sort contract of quicksort admits it), so ties
need not appear in lattice enumeration order. -/
theorem c3_counterexample :
    score_candidates cdist [] [cstop] [cstop] (candidate_locations sqBounds 2) = .ok c3_scored ∧
    (∀ a ∈ c3_scored, a.hub_score = 66.25) ∧
    GridSearchOutput cdist [] [cstop] [cstop] sqBounds 2 4 c3_scored.reverse ∧
    c3_scored.reverse ≠ c3_scored := by
  have hlen : c3_scored.length = 4 := by
    simp [c3_scored, List.length_map, candidate_locations_length]
  refine ⟨score_candidates_cdist _, ?_, ?_, ?_⟩
  · intro a ha
    exact mem_map_toRanked_hub_score (by simpa [c3_scored] using ha)
  · refine ⟨c3_scored, c3_scored.reverse, score_candidates_cdist _,
      ⟨(List.reverse_perm c3_scored).symm, ?_⟩, ?_⟩
    · refine pairwise_hub_le_of_const 66.25 _ fun a ha => ?_
      exact mem_map_toRanked_hub_score
        (by simpa [c3_scored] using List.mem_reverse.mp ha)
    · rw [List.take_of_length_le]
      rw [List.length_reverse, hlen]
  · with_unfolding_all decide

/-- C1: for every query point and non-empty bus and rail reference sets,
the (unrounded) transport connectivity component equals the spec's bus
contribution plus rail contribution, each evaluated at the minimum
geodesic distance from the point to the respective reference set, and
whenever the scorer succeeds its reported transport sub-score is that sum
rounded to two decimals. -/
theorem c1_transport_component (dist : GeoPoint → GeoPoint → ℚ) (p : GeoPoint)
    (bikes : List BikeStation) (bus luas : List TransportStop) (db dl : ℚ)
    (hdb_mem : db ∈ bus.map fun t => dist p t.pos)
    (hdb_min : ∀ y ∈ bus.map fun t => dist p t.pos, db ≤ y)
    (hdl_mem : dl ∈ luas.map fun t => dist p t.pos)
    (hdl_min : ∀ y ∈ luas.map fun t => dist p t.pos, dl ≤ y) :
    ∃ bp lp, calculate_distance_to_transport dist p bus = .ok bp ∧
      calculate_distance_to_transport dist p luas = .ok lp ∧
      bp.distance_meters = db ∧ lp.distance_meters = dl ∧
      transport_score_val bp lp = spec_bus_contribution db + spec_rail_contribution dl ∧
      ∀ r, calculate_hub_score dist bikes bus luas p = .ok r →
        r.transport_score = pyRound2 (spec_bus_contribution db + spec_rail_contribution dl) := by
  rcases calculate_distance_to_transport_cases dist p bus with ⟨hnil, _⟩ | ⟨m, t, hmin, hok⟩
  · subst hnil; simp at hdb_mem
  rcases calculate_distance_to_transport_cases dist p luas with ⟨hnil', _⟩ | ⟨m', t', hmin', hok'⟩
  · subst hnil'; simp at hdl_mem
  have hm : m = db := by
    have h := pyMinOpt_eq_some_of_isLeast _ db hdb_mem hdb_min
    rw [hmin] at h
    exact Option.some.inj h
  have hm' : m' = dl := by
    have h := pyMinOpt_eq_some_of_isLeast _ dl hdl_mem hdl_min
    rw [hmin'] at h
    exact Option.some.inj h
  rw [hm] at hok
  rw [hm'] at hok'
  have hval : transport_score_val
      { distance_meters := db, nearest_station := stopDisplayName t,
        within_500m := decide (db ≤ 500), within_200m := decide (db ≤ 200) }
      { distance_meters := dl, nearest_station := stopDisplayName t',
        within_500m := decide (dl ≤ 500), within_200m := decide (dl ≤ 200) } =
      spec_bus_contribution db + spec_rail_contribution dl := by
    simp only [transport_score_val, spec_bus_contribution, spec_rail_contribution]
    by_cases h2 : db ≤ 200 <;> by_cases h5 : db ≤ 500 <;> by_cases hl5 : dl ≤ 500 <;>
      simp [h2, h5, hl5]
  refine ⟨_, _, hok, hok', rfl, rfl, hval, ?_⟩
  intro r hr
  simp only [calculate_hub_score, hok, hok', Except.ok.injEq] at hr
  subst hr
  rw [← hval]

/-- C1 witness: a single bus stop and rail station each 100m away: the
minimum-distance hypotheses hold and the transport component is the spec's
formulas at distance 100. -/
theorem c1_witness :
    ((100 : ℚ) ∈ [cstop].map fun t => cdist ⟨0, 0⟩ t.pos) ∧
    (∀ y ∈ [cstop].map fun t => cdist ⟨0, 0⟩ t.pos, (100 : ℚ) ≤ y) ∧
    (∃ bp lp, calculate_distance_to_transport cdist ⟨0, 0⟩ [cstop] = .ok bp ∧
      calculate_distance_to_transport cdist ⟨0, 0⟩ [cstop] = .ok lp ∧
      bp.distance_meters = 100 ∧ lp.distance_meters = 100 ∧
      transport_score_val bp lp = spec_bus_contribution 100 + spec_rail_contribution 100 ∧
      ∀ r, calculate_hub_score cdist [] [cstop] [cstop] ⟨0, 0⟩ = .ok r →
        r.transport_score = pyRound2 (spec_bus_contribution 100 + spec_rail_contribution 100)) := by
  refine ⟨by simp [cdist], by simp [cdist], ?_⟩
  exact c1_transport_component cdist ⟨0, 0⟩ [] [cstop] [cstop] 100 100
    (by simp [cdist]) (by simp [cdist]) (by simp [cdist]) (by simp [cdist])

/-- C2: the raw bike-demand value is the sum, over the stations within
1000m, of `availability_score * max(0, 1 - d/1000)`, divided by the count
of those stations (1 when none qualify), and the (unrounded) demand
sub-score is `min(raw/20*25, 25)`. -/
theorem c2_bike_demand (dist : GeoPoint → GeoPoint → ℚ)
    (bikes : List BikeStation) (bus luas : List TransportStop) (p : GeoPoint)
    (r : HubScore) (h : calculate_hub_score dist bikes bus luas p = .ok r) :
    calculate_bike_demand dist bikes p =
      ((bikes.filter fun s => decide (dist p s.pos ≤ 1000)).map
        fun s => availability_score s * max 0 (1 - dist p s.pos / 1000)).sum /
      ((max (bikes.filter fun s => decide (dist p s.pos ≤ 1000)).length 1 : Nat) : ℚ) ∧
    r.demand_score = pyRound2 (min (calculate_bike_demand dist bikes p / 20 * 25) 25) := by
  constructor
  · simp only [calculate_bike_demand, bikeLoop_eq dist p bikes 0 0]
    norm_num
  · rcases hbus : calculate_distance_to_transport dist p bus with e | bp
    · simp only [calculate_hub_score, hbus] at h
      exact Except.noConfusion h
    · rcases hluas : calculate_distance_to_transport dist p luas with e | lp
      · simp only [calculate_hub_score, hbus, hluas] at h
        exact Except.noConfusion h
      · simp only [calculate_hub_score, hbus, hluas, Except.ok.injEq] at h
        subst h
        rfl

/-- C2 witness: the demand formula and sub-score equation at a concrete
successful scoring call (empty bike dataset). -/
theorem c2_witness :
    calculate_hub_score cdist [] [cstop] [cstop] ⟨0, 0⟩ = .ok cScore ∧
    (calculate_bike_demand cdist [] ⟨0, 0⟩ =
      ((([] : List BikeStation).filter fun s => decide (cdist ⟨0, 0⟩ s.pos ≤ 1000)).map
        fun s => availability_score s * max 0 (1 - cdist ⟨0, 0⟩ s.pos / 1000)).sum /
      ((max (([] : List BikeStation).filter fun s => decide (cdist ⟨0, 0⟩ s.pos ≤ 1000)).length 1 : Nat) : ℚ) ∧
    cScore.demand_score = pyRound2 (min (calculate_bike_demand cdist [] ⟨0, 0⟩ / 20 * 25) 25)) :=
  ⟨calculate_hub_score_cdist ⟨0, 0⟩,
   c2_bike_demand cdist [] [cstop] [cstop] ⟨0, 0⟩ cScore (calculate_hub_score_cdist ⟨0, 0⟩)⟩

/-- C6: with a non-empty bus and rail set, scoring with an empty bike
dataset succeeds; the raw demand and the demand sub-score are 0, the
bike-gap term saturates at its clamped maximum 1, and the infrastructure
gap is `(1 + min 1 (bus_min/500))/2`. -/
theorem c6_empty_bike_dataset (dist : GeoPoint → GeoPoint → ℚ) (p : GeoPoint)
    (bus luas : List TransportStop) (hb : bus ≠ []) (hl : luas ≠ []) :
    ∃ r dbus, calculate_hub_score dist [] bus luas p = .ok r ∧
      r.demand_score = 0 ∧
      calculate_bike_demand dist [] p = 0 ∧
      infClampDiv (pyMinOpt (([] : List BikeStation).map fun s => dist p s.pos)) 1000 = 1 ∧
      pyMinOpt (bus.map fun t => dist p t.pos) = some dbus ∧
      calculate_infrastructure_gap dist [] bus p = (1 + min 1 (dbus / 500)) / 2 := by
  rcases calculate_distance_to_transport_cases dist p bus with ⟨hnil, _⟩ | ⟨m, t, hmin, hok⟩
  · exact absurd hnil hb
  rcases calculate_distance_to_transport_cases dist p luas with ⟨hnil', _⟩ | ⟨m', t', hmin', hok'⟩
  · exact absurd hnil' hl
  have hdem : calculate_bike_demand dist [] p = 0 := by
    norm_num [calculate_bike_demand, bikeLoop]
  rcases hchs : calculate_hub_score dist [] bus luas p with e | r
  · simp only [calculate_hub_score, hok, hok'] at hchs
    exact Except.noConfusion hchs
  · refine ⟨r, m, rfl, ?_, hdem, rfl, hmin, ?_⟩
    · simp only [calculate_hub_score, hok, hok', Except.ok.injEq] at hchs
      subst hchs
      norm_num [hdem, pyRound2, round_eq, min_def]
    · have hbikes : pyMinOpt (([] : List BikeStation).map fun s => dist p s.pos) = none := rfl
      simp only [calculate_infrastructure_gap, hbikes, hmin, infClampDiv]

/-- C6 witness: concrete empty-bike-dataset run with singleton bus and
rail sets. -/
theorem c6_witness :
    ([cstop] ≠ ([] : List TransportStop)) ∧
    (∃ r dbus, calculate_hub_score cdist [] [cstop] [cstop] ⟨0, 0⟩ = .ok r ∧
      r.demand_score = 0 ∧
      calculate_bike_demand cdist [] ⟨0, 0⟩ = 0 ∧
      infClampDiv (pyMinOpt (([] : List BikeStation).map fun s => cdist ⟨0, 0⟩ s.pos)) 1000 = 1 ∧
      pyMinOpt ([cstop].map fun t => cdist ⟨0, 0⟩ t.pos) = some dbus ∧
      calculate_infrastructure_gap cdist [] [cstop] ⟨0, 0⟩ = (1 + min 1 (dbus / 500)) / 2) :=
  ⟨by simp, c6_empty_bike_dataset cdist ⟨0, 0⟩ [cstop] [cstop] (by simp) (by simp)⟩

/-! ### Permutation invariance -/

theorem calculate_bike_demand_perm (dist : GeoPoint → GeoPoint → ℚ) (p : GeoPoint)
    {bikes bikes' : List BikeStation} (h : bikes.Perm bikes') :
    calculate_bike_demand dist bikes p = calculate_bike_demand dist bikes' p := by
  simp only [calculate_bike_demand, bikeLoop_eq dist p _ 0 0]
  have hf : (bikes.filter fun s => decide (dist p s.pos ≤ 1000)).Perm
      (bikes'.filter fun s => decide (dist p s.pos ≤ 1000)) := h.filter _
  rw [(hf.map fun s => availability_score s * max 0 (1 - dist p s.pos / 1000)).sum_eq,
    hf.length_eq]

theorem calculate_infrastructure_gap_perm (dist : GeoPoint → GeoPoint → ℚ) (p : GeoPoint)
    {bikes bikes' : List BikeStation} {bus bus' : List TransportStop}
    (hb : bikes.Perm bikes') (hs : bus.Perm bus') :
    calculate_infrastructure_gap dist bikes bus p =
      calculate_infrastructure_gap dist bikes' bus' p := by
  simp only [calculate_infrastructure_gap]
  rw [pyMinOpt_perm (hb.map fun s => dist p s.pos),
    pyMinOpt_perm (hs.map fun t => dist p t.pos)]

/-- C8: the total score and all five sub-score values are invariant under
any permutation of the bike, bus and rail datasets (only the station names
in the components record can differ on distance ties). -/
theorem c8_score_perm_invariant (dist : GeoPoint → GeoPoint → ℚ) (p : GeoPoint)
    (bikes bikes' : List BikeStation) (bus bus' luas luas' : List TransportStop)
    (h1 : bikes.Perm bikes') (h2 : bus.Perm bus') (h3 : luas.Perm luas') :
    (calculate_hub_score dist bikes bus luas p).map score_values =
      (calculate_hub_score dist bikes' bus' luas' p).map score_values := by
  have hdemand := calculate_bike_demand_perm dist p h1
  have hgap := calculate_infrastructure_gap_perm dist p h1 h2
  rcases calculate_distance_to_transport_cases dist p bus with ⟨hnil, heq⟩ | ⟨mb, tb, hminb, hokb⟩
  · have hnil' : bus' = [] := by
      subst hnil
      exact h2.symm.eq_nil
    subst hnil hnil'
    simp only [calculate_hub_score, calculate_distance_to_transport_empty]
  · rcases calculate_distance_to_transport_cases dist p bus' with ⟨hnil', _⟩ | ⟨mb', tb', hminb', hokb'⟩
    · subst hnil'
      rw [h2.eq_nil, List.map_nil] at hminb
      exact Option.noConfusion (pyMinOpt_nil ▸ hminb)
    · have hmb : mb' = mb := by
        have hp := pyMinOpt_perm (h2.map fun s => dist p s.pos)
        rw [hminb, hminb'] at hp
        exact (Option.some.inj hp).symm
      subst hmb
      rcases calculate_distance_to_transport_cases dist p luas with ⟨hnil, _⟩ | ⟨ml, tl, hminl, hokl⟩
      · have hnil' : luas' = [] := by
          subst hnil
          exact h3.symm.eq_nil
        subst hnil hnil'
        simp only [calculate_hub_score, calculate_distance_to_transport_empty, hokb, hokb']
      · rcases calculate_distance_to_transport_cases dist p luas' with ⟨hnil', _⟩ | ⟨ml', tl', hminl', hokl'⟩
        · subst hnil'
          rw [h3.eq_nil, List.map_nil] at hminl
          exact Option.noConfusion (pyMinOpt_nil ▸ hminl)
        · have hml : ml' = ml := by
            have hp := pyMinOpt_perm (h3.map fun s => dist p s.pos)
            rw [hminl, hminl'] at hp
            exact (Option.some.inj hp).symm
          subst hml
          simp only [calculate_hub_score, hokb, hokb', hokl, hokl', Except.map, score_values,
            transport_score_val]
          rw [hdemand, hgap]

/-- A second transport reference row, 100m from everything under `cdist`,
used to witness the permutation invariance at a concrete swap. -/
def cstop2 : TransportStop :=
  { pos := ⟨1, 1⟩, name := some "Stop2", station_name := none }

/-- C8 witness: swapping the two bus stops leaves all six score values
unchanged at a concrete query. -/
theorem c8_witness :
    ([cstop, cstop2].Perm [cstop2, cstop]) ∧
    (calculate_hub_score cdist [] [cstop, cstop2] [cstop] ⟨0, 0⟩).map score_values =
      (calculate_hub_score cdist [] [cstop2, cstop] [cstop] ⟨0, 0⟩).map score_values :=
  ⟨List.Perm.swap cstop2 cstop [],
   c8_score_perm_invariant cdist ⟨0, 0⟩ [] [] [cstop, cstop2] [cstop2, cstop] [cstop] [cstop]
     (List.Perm.refl _) (List.Perm.swap cstop2 cstop []) (List.Perm.refl _)⟩

/-- C9: viewed as a function of the nearest-bike and nearest-bus
distances, the infrastructure-gap component equals
`20 * ((min 1 (bike/1000) + min 1 (bus/500)) / 2)` and is monotonically
non-decreasing in each distance. -/
theorem c9_gap_formula_monotone (dist : GeoPoint → GeoPoint → ℚ)
    (bikes : List BikeStation) (bus : List TransportStop) (p : GeoPoint)
    (d1 d1' d2 d2' : ℚ)
    (hbike : pyMinOpt (bikes.map fun s => dist p s.pos) = some d1)
    (hbus : pyMinOpt (bus.map fun t => dist p t.pos) = some d2)
    (h1 : d1 ≤ d1') (h2 : d2 ≤ d2') :
    calculate_infrastructure_gap dist bikes bus p * 20 =
      20 * ((min 1 (d1 / 1000) + min 1 (d2 / 500)) / 2) ∧
    20 * ((min 1 (d1 / 1000) + min 1 (d2 / 500)) / 2) ≤
      20 * ((min 1 (d1' / 1000) + min 1 (d2' / 500)) / 2) := by
  constructor
  · simp only [calculate_infrastructure_gap, hbike, hbus, infClampDiv]
    ring
  · have hm1 : min 1 (d1 / 1000) ≤ min 1 (d1' / 1000) :=
      min_le_min le_rfl (by linarith)
    have hm2 : min 1 (d2 / 500) ≤ min 1 (d2' / 500) :=
      min_le_min le_rfl (by linarith)
    linarith

/-- A concrete bike station (the Trinity College sample row), 100m away
under `cdist`. -/
def cbike : BikeStation :=
  { station_id := 4, name := "Trinity College", pos := ⟨53.3439, -6.2546⟩,
    available_bikes := 12, available_stands := 8, total_capacity := 25, status := "OPEN" }

/-- C9 witness: concrete nearest distances 100m, compared against the
larger distances 300m. -/
theorem c9_witness :
    pyMinOpt ([cbike].map fun s => cdist ⟨0, 0⟩ s.pos) = some 100 ∧
    pyMinOpt ([cstop].map fun t => cdist ⟨0, 0⟩ t.pos) = some 100 ∧
    ((100 : ℚ) ≤ 300) ∧
    (calculate_infrastructure_gap cdist [cbike] [cstop] ⟨0, 0⟩ * 20 =
       20 * ((min 1 ((100 : ℚ) / 1000) + min 1 ((100 : ℚ) / 500)) / 2) ∧
     20 * ((min 1 ((100 : ℚ) / 1000) + min 1 ((100 : ℚ) / 500)) / 2) ≤
       20 * ((min 1 ((300 : ℚ) / 1000) + min 1 ((300 : ℚ) / 500)) / 2)) := by
  refine ⟨rfl, rfl, by norm_num, ?_⟩
  exact c9_gap_formula_monotone cdist [cbike] [cstop] ⟨0, 0⟩ 100 300 100 300 rfl rfl
    (by norm_num) (by norm_num)

/-! ### The rounding structure of the returned score -/

/-- A distance function realising nearest-bus 699.6m, nearest-rail 400m,
nearest-bike 996.8m and amenities out of range. -/
def c10dist : GeoPoint → GeoPoint → ℚ := fun _ q =>
  if q = (⟨1, 0⟩ : GeoPoint) then 699.6
  else if q = (⟨2, 0⟩ : GeoPoint) then 400
  else if q = (⟨3, 0⟩ : GeoPoint) then 996.8
  else 2500

/-- Single bus stop of the rounding scenario. -/
def c10bus : List TransportStop :=
  [{ pos := ⟨1, 0⟩, name := none, station_name := none }]

/-- Single Luas station of the rounding scenario. -/
def c10luas : List TransportStop :=
  [{ pos := ⟨2, 0⟩, name := none, station_name := some "L" }]

/-- Single bike station (availability 1) of the rounding scenario. -/
def c10bikes : List BikeStation :=
  [{ station_id := 1, name := "B", pos := ⟨3, 0⟩, available_bikes := 1, available_stands := 0,
     total_capacity := 1, status := "OPEN" }]

/-- The score of the rounding scenario: unrounded components are
transport 28.004, demand 0.004, gap 19.968, accessibility 0, population 5,
so the total 52.976 rounds to 52.98 while the rounded sub-scores sum to
52.97. -/
def c10r : HubScore :=
  { total_score := 52.98, transport_score := 28, demand_score := 0, gap_score := 19.97,
    accessibility_score := 0, population_score := 5,
    components := { nearest_bus := "Unknown", bus_distance := 699.6, nearest_luas := "L",
                    luas_distance := 400, bike_demand := 0.0032 } }

theorem calculate_hub_score_c10 :
    calculate_hub_score c10dist c10bikes c10bus c10luas ⟨0, 0⟩ = .ok c10r := by
  norm_num [calculate_hub_score, calculate_distance_to_transport, nearestLoop, c10dist, c10bus,
    c10luas, c10bikes, stopDisplayName, transport_score_val, calculate_bike_demand, bikeLoop,
    calculate_infrastructure_gap, pyMinOpt, minLoop, infClampDiv, key_locations,
    calculate_accessibility_score, pyRound2, c10r, availability_score, round_eq, min_def, max_def]

theorem c10_cdt_bus :
    calculate_distance_to_transport c10dist ⟨0, 0⟩ c10bus =
      .ok { distance_meters := 699.6, nearest_station := "Unknown",
            within_500m := false, within_200m := false } := by
  norm_num [calculate_distance_to_transport, nearestLoop, c10dist, c10bus, stopDisplayName]

theorem c10_cdt_luas :
    calculate_distance_to_transport c10dist ⟨0, 0⟩ c10luas =
      .ok { distance_meters := 400, nearest_station := "L",
            within_500m := true, within_200m := false } := by
  norm_num [calculate_distance_to_transport, nearestLoop, c10dist, c10luas, stopDisplayName]

/-- C10: the returned `total_score` is the sum of the five unrounded
components rounded once to two decimals, while each sub-score is rounded
independently; consequently — as the concrete scenario
(`c10dist`, `c10bikes`, `c10bus`, `c10luas`) shows — the reported total
need not equal the sum of the five reported rounded sub-scores. -/
theorem c10_rounding_structure (dist : GeoPoint → GeoPoint → ℚ)
    (bikes : List BikeStation) (bus luas : List TransportStop) (p : GeoPoint)
    (r : HubScore) (bp lp : TransportProximity)
    (h : calculate_hub_score dist bikes bus luas p = .ok r)
    (hbp : calculate_distance_to_transport dist p bus = .ok bp)
    (hlp : calculate_distance_to_transport dist p luas = .ok lp) :
    (r.total_score = pyRound2 (transport_score_val bp lp +
        min (calculate_bike_demand dist bikes p / 20 * 25) 25 +
        calculate_infrastructure_gap dist bikes bus p * 20 +
        calculate_accessibility_score dist p * 15 + 5) ∧
      r.transport_score = pyRound2 (transport_score_val bp lp) ∧
      r.demand_score = pyRound2 (min (calculate_bike_demand dist bikes p / 20 * 25) 25) ∧
      r.gap_score = pyRound2 (calculate_infrastructure_gap dist bikes bus p * 20) ∧
      r.accessibility_score = pyRound2 (calculate_accessibility_score dist p * 15) ∧
      r.population_score = pyRound2 5) ∧
    (calculate_hub_score c10dist c10bikes c10bus c10luas ⟨0, 0⟩ = .ok c10r ∧
      c10r.total_score ≠ c10r.transport_score + c10r.demand_score + c10r.gap_score +
        c10r.accessibility_score + c10r.population_score) := by
  constructor
  · simp only [calculate_hub_score, hbp, hlp, Except.ok.injEq] at h
    subst h
    exact ⟨rfl, rfl, rfl, rfl, rfl, rfl⟩
  · refine ⟨calculate_hub_score_c10, ?_⟩
    norm_num [c10r]

/-- C10 witness: the rounding structure evaluated at the concrete
scenario, exhibiting 52.98 ≠ 28 + 0 + 19.97 + 0 + 5. -/
theorem c10_witness :
    calculate_hub_score c10dist c10bikes c10bus c10luas ⟨0, 0⟩ = .ok c10r ∧
    c10r.demand_score =
      pyRound2 (min (calculate_bike_demand c10dist c10bikes ⟨0, 0⟩ / 20 * 25) 25) ∧
    c10r.total_score ≠ c10r.transport_score + c10r.demand_score + c10r.gap_score +
      c10r.accessibility_score + c10r.population_score := by
  have h := c10_rounding_structure c10dist c10bikes c10bus c10luas ⟨0, 0⟩ c10r _ _
    calculate_hub_score_c10 c10_cdt_bus c10_cdt_luas
  exact ⟨calculate_hub_score_c10, h.1.2.2.1, h.2.2⟩
